import Mathlib

/-!
Verification of the envelope-budgeting ledger engine (`src/bot.py`).

The Python engine keeps a single JSON aggregate
`{buckets: dict, transactions: list, income: list}` and mutates it via
whole-aggregate read-modify-write.  We embed that aggregate shallowly:

* Python `dict` (insertion-ordered) becomes an association list
  `List (String × Bucket)`;
* Python `float` amounts become `Rat` (exact arithmetic over the same
  formulas);
* the message-handler fragments that post transactions become explicit
  pure functions `Store → Store × Result`.

Every definition below is translated from the source function named in its
doc comment.
-/

namespace BudgetBot

/-- A budget bucket (envelope), keyed in the store by its emote string.
Mirrors the dict created in `set_bucket` (bot.py:255-260). -/
structure Bucket where
  name : String
  target : Rat
  emote : String
  allocated : Rat
deriving Repr, DecidableEq

/-- A posted transaction record, mirroring the dict built in `on_message`
(bot.py:798-805). -/
structure Transaction where
  date : Nat
  bucket : String
  amount : Rat
  description : String
  message_id : Nat
  cc_purchase : Bool
deriving Repr, DecidableEq

/-- An income record, mirroring the dict built in `add_income`
(bot.py:341-347). -/
structure IncomeRecord where
  date : Nat
  amount : Rat
  description : String
  person : String
deriving Repr, DecidableEq

/-- The persisted aggregate.  `income` is an `Option` because the JSON key
`'income'` may be absent (`get_total_income` checks `'income' not in data`,
bot.py:42). -/
structure Store where
  buckets : List (String × Bucket)
  transactions : List Transaction
  income : Option (List IncomeRecord)
deriving Repr, DecidableEq

/-- Python `data['buckets'].get(emote)` / `emote in data['buckets']` on an
insertion-ordered dict, as association-list lookup. -/
def lookupDict (l : List (String × Bucket)) (k : String) : Option Bucket :=
  match l with
  | [] => none
  | (k', v) :: rest => if k' = k then some v else lookupDict rest k

/-- Python `data['buckets'][emote] = bucket`: update in place if the key
exists (keeping its position), else append at the end. -/
def dictInsert (l : List (String × Bucket)) (k : String) (v : Bucket) :
    List (String × Bucket) :=
  match l with
  | [] => [(k, v)]
  | (k', v') :: rest =>
      if k' = k then (k, v) :: rest else (k', v') :: dictInsert rest k v

/-- Python `abs` on an amount, written executably (Mathlib's `|·|` on `Rat`
goes through the lattice structure and does not kernel-reduce). -/
def ratAbs (q : Rat) : Rat := if q < 0 then -q else q

theorem ratAbs_eq_abs (q : Rat) : ratAbs q = |q| := by
  unfold ratAbs
  rcases lt_or_le q 0 with h | h
  · rw [if_pos h, abs_of_neg h]
  · rw [if_neg (not_lt.mpr h), abs_of_nonneg h]

/-- `get_total_income` (bot.py:40-44): 0 when the `'income'` key is absent,
else the sum of the amounts. -/
def get_total_income (data : Store) : Rat :=
  match data.income with
  | none => 0
  | some l => (l.map (·.amount)).sum

/-- `get_total_allocated` (bot.py:47-49). -/
def get_total_allocated (data : Store) : Rat :=
  (data.buckets.map (fun p => p.2.allocated)).sum

/-- `get_unallocated` (bot.py:52-54). -/
def get_unallocated (data : Store) : Rat :=
  get_total_income data - get_total_allocated data

/-- `get_spent` (bot.py:57-62): sum of `abs(t.amount)` over transactions of
this bucket with strictly negative amount. -/
def get_spent (data : Store) (emote : String) : Rat :=
  ((data.transactions.filter
      (fun t => t.bucket = emote ∧ t.amount < 0)).map
    (fun t => ratAbs t.amount)).sum

/-- `get_available` (bot.py:65-70): `allocated - spent`, with `allocated`
defaulting to 0 when the bucket key is missing (`dict.get` chain). -/
def get_available (data : Store) (emote : String) : Rat :=
  let allocated :=
    match lookupDict data.buckets emote with
    | some b => b.allocated
    | none => 0
  allocated - get_spent data emote

/-- Python `needle == hay[:len(needle)]` on char lists: the first argument
occurs at the very front of the second. -/
def charsStart : List Char → List Char → Bool
  | [], _ => true
  | _ :: _, [] => false
  | a :: as, b :: bs => a = b && charsStart as bs

/-- Python's substring test `needle in hay` on char lists: the first argument
occurs contiguously somewhere in the second (the empty needle always does). -/
def charsContain (needle : List Char) : List Char → Bool
  | [] => charsStart needle []
  | b :: bs => charsStart needle (b :: bs) || charsContain needle bs

/-- Python `needle in hay` on strings. -/
def strContains (hay needle : String) : Bool :=
  charsContain needle.data hay.data

/-- Python `s.lower()`: per-character lowercase (written structurally so it
evaluates in the kernel; `String.toLower` recurses on byte positions and
does not). -/
def strLower (s : String) : String :=
  ⟨s.data.map Char.toLower⟩

/-- Python `s.upper()`: per-character uppercase. -/
def strUpper (s : String) : String :=
  ⟨s.data.map Char.toUpper⟩

/-- Python `s.endswith(suffix)`: the suffix's characters close the string. -/
def strEndsWith (s suffix : String) : Bool :=
  charsStart suffix.data.reverse s.data.reverse

/-- Python `s[:-n]`: all but the last `n` characters. -/
def strDropRight (s : String) (n : Nat) : String :=
  ⟨s.data.take (s.data.length - n)⟩

/-- Drop leading whitespace characters. -/
def charsTrimLeft : List Char → List Char
  | [] => []
  | c :: cs => if c.isWhitespace then charsTrimLeft cs else c :: cs

/-- Python `s.strip()`: drop whitespace from both ends. -/
def strTrim (s : String) : String :=
  ⟨(charsTrimLeft (charsTrimLeft s.data).reverse).reverse⟩

/-- The first `for` loop of `find_bucket_by_name` (bot.py:78-80): first bucket
whose lowered name equals the lowered query. -/
def findExact (name_lower : String) : List (String × Bucket) → Option (String × Bucket)
  | [] => none
  | (emote, bucket) :: rest =>
      if strLower bucket.name = name_lower then some (emote, bucket)
      else findExact name_lower rest

/-- The second `for` loop of `find_bucket_by_name` (bot.py:83-85): first
bucket whose lowered name contains the lowered query as a substring. -/
def findPartial (name_lower : String) : List (String × Bucket) → Option (String × Bucket)
  | [] => none
  | (emote, bucket) :: rest =>
      if strContains (strLower bucket.name) name_lower then some (emote, bucket)
      else findPartial name_lower rest

/-- `find_bucket_by_name` (bot.py:73-87): exact pass, then partial pass, then
`(None, None)` (here `none`). -/
def find_bucket_by_name (data : Store) (name : String) : Option (String × Bucket) :=
  match findExact (strLower name) data.buckets with
  | some r => some r
  | none => findPartial (strLower name) data.buckets

/-- `set_bucket` (bot.py:244-263): insert or overwrite the bucket dict under
`emote`, carrying over an existing `allocated` value (default 0). -/
def set_bucket (data : Store) (emote name : String) (amount : Rat) : Store :=
  let existing_allocated :=
    match lookupDict data.buckets emote with
    | some b => b.allocated
    | none => 0
  { data with
    buckets := dictInsert data.buckets emote
      { name := name, target := amount, emote := emote,
        allocated := existing_allocated } }

/-- Outcome of `undo_last`. -/
inductive UndoResult where
  | undone (t : Transaction)
  | nothingToUndo
deriving Repr, DecidableEq

/-- `undo_last` (bot.py:600-619): pop the last transaction when the log is
non-empty, else report that there is nothing to undo. -/
def undo_last (data : Store) : Store × UndoResult :=
  match data.transactions.getLast? with
  | some t => ({ data with transactions := data.transactions.dropLast }, .undone t)
  | none => (data, .nothingToUndo)

/-- Outcome of `adjust_allocation`. -/
inductive AdjustResult where
  | unknownBucket
  | negativeRejected (would : Rat)
  | adjusted (oldAllocated newAllocated : Rat)
deriving Repr, DecidableEq

/-- `adjust_allocation` (bot.py:622-655): reject an unknown bucket; reject
(with no mutation and no save) an adjustment that would drive `allocated`
negative; otherwise commit `allocated + amount`. -/
def adjust_allocation (data : Store) (emote : String) (amount : Rat) :
    Store × AdjustResult :=
  match lookupDict data.buckets emote with
  | none => (data, .unknownBucket)
  | some bucket =>
      let old_allocated := bucket.allocated
      let new_allocated := old_allocated + amount
      if new_allocated < 0 then (data, .negativeRejected new_allocated)
      else
        ({ data with
            buckets := dictInsert data.buckets emote
              { bucket with allocated := new_allocated } },
         .adjusted old_allocated new_allocated)

/-- `clear_data` (bot.py:658-662): `save_data({'buckets': {}, 'transactions':
[]})` replaces the whole persisted aggregate with a dict that has no
`'income'` key at all. -/
def clear_data (_data : Store) : Store :=
  { buckets := [], transactions := [], income := none }

/-- The `" CC"` suffix parse of `on_message` (bot.py:784-786):
`description.upper().endswith(' CC')` marks a credit-card purchase, and then
the last three characters are dropped and the rest stripped. -/
def parse_cc_suffix (description : String) : Bool × String :=
  let is_cc_purchase := strEndsWith (strUpper description) " CC"
  if is_cc_purchase then (true, strTrim (strDropRight description 3))
  else (false, description)

/-- The credit-card bucket search loop of `on_message` (bot.py:813-816):
first bucket (in dict order) whose lowered name is `"creditcard"`. -/
def find_cc_bucket : List (String × Bucket) → Option String
  | [] => none
  | (bucket_emote, bucket_data) :: rest =>
      if strLower bucket_data.name = "creditcard" then some bucket_emote
      else find_cc_bucket rest

/-- Outcome of the explicit-transaction posting path. -/
inductive PostResult where
  | unknownBucket
  | posted (dual : Bool)
deriving Repr, DecidableEq

/-- The explicit-transaction posting path of `on_message` (bot.py:789-830):
unknown bucket key is an error with no change; otherwise append the
transaction, and when it is a credit-card purchase with a negative amount
and a `"creditcard"`-named bucket exists, also append the mirror charge
(same signed amount, annotated description, `cc_purchase := false`). -/
def post_transaction (data : Store) (emote : String) (amount : Rat)
    (description : String) (is_cc_purchase : Bool) (msgId date : Nat) :
    Store × PostResult :=
  match lookupDict data.buckets emote with
  | none => (data, .unknownBucket)
  | some bucket =>
      let transaction : Transaction :=
        { date := date, bucket := emote, amount := amount,
          description := description, message_id := msgId,
          cc_purchase := is_cc_purchase }
      let txs := data.transactions ++ [transaction]
      let cc_emote : Option String :=
        if is_cc_purchase ∧ amount < 0 then find_cc_bucket data.buckets
        else none
      match cc_emote with
      | some ce =>
          let cc_transaction : Transaction :=
            { date := date, bucket := ce, amount := amount,
              description := description ++ " (from " ++ bucket.name ++ ")",
              message_id := msgId, cc_purchase := false }
          ({ data with transactions := txs ++ [cc_transaction] }, .posted true)
      | none => ({ data with transactions := txs }, .posted false)

/-- The full explicit-transaction message path: parse the `" CC"` suffix off
the raw description (bot.py:784-786), then post (bot.py:789-830). -/
def post_explicit (data : Store) (emote : String) (amount : Rat)
    (rawDescription : String) (msgId date : Nat) : Store × PostResult :=
  let parsed := parse_cc_suffix rawDescription
  post_transaction data emote amount parsed.2 parsed.1 msgId date

/-- The signed per-bucket balance of `on_message` (bot.py:833-836). -/
def bucket_balance (data : Store) (emote : String) : Rat :=
  ((data.transactions.filter (fun t => t.bucket = emote)).map
    (fun t => t.amount)).sum

/-- The credit-card utilization formula of `on_message` (bot.py:846):
`debt / limit_or_goal * 100` guarded by `limit_or_goal > 0`, else 0. -/
def utilization (limit_or_goal debt : Rat) : Rat :=
  if limit_or_goal > 0 then debt / limit_or_goal * 100 else 0

/-- The three credit-card status tiers. -/
inductive CCStatus where
  | critical
  | warning
  | nominal
deriving Repr, DecidableEq

/-- The credit-card status tiering of `on_message` (bot.py:850-858):
strictly above 90 is critical, else strictly above 50 is warning, else
nominal. -/
def cc_status (u : Rat) : CCStatus :=
  if u > 90 then .critical
  else if u > 50 then .warning
  else .nominal

/-! ### Helper lemmas about the dict model -/

theorem lookupDict_dictInsert_self (l : List (String × Bucket)) (k : String) (v : Bucket) :
    lookupDict (dictInsert l k v) k = some v := by
  induction l with
  | nil => simp [dictInsert, lookupDict]
  | cons p rest ih =>
      obtain ⟨k', v'⟩ := p
      by_cases h : k' = k
      · simp [dictInsert, h, lookupDict]
      · simp [dictInsert, h, lookupDict, ih]

theorem dictInsert_dictInsert (l : List (String × Bucket)) (k : String) (v w : Bucket) :
    dictInsert (dictInsert l k v) k w = dictInsert l k w := by
  induction l with
  | nil => simp [dictInsert]
  | cons p rest ih =>
      obtain ⟨k', v'⟩ := p
      by_cases h : k' = k <;> simp [dictInsert, h, ih]

/-! ### Specification-side restatements -/

/-- Direct recursive restatement of §4.1's `spent`: the sum of the absolute
values of the amounts of exactly the strictly negative transactions of the
bucket. -/
def spentRec (b : String) : List Transaction → Rat
  | [] => 0
  | t :: rest =>
      (if t.bucket = b ∧ t.amount < 0 then |t.amount| else 0) + spentRec b rest

theorem filter_abs_sum_eq_spentRec (b : String) (l : List Transaction) :
    ((l.filter (fun t => t.bucket = b ∧ t.amount < 0)).map
      (fun t => ratAbs t.amount)).sum = spentRec b l := by
  induction l with
  | nil => rfl
  | cons t rest ih =>
      rw [List.filter_cons]
      by_cases h : t.bucket = b ∧ t.amount < 0
      · rw [if_pos (decide_eq_true h), List.map_cons, List.sum_cons,
          show spentRec b (t :: rest)
              = (if t.bucket = b ∧ t.amount < 0 then |t.amount| else 0)
                + spentRec b rest from rfl,
          if_pos h, ih, ratAbs_eq_abs]
      · rw [if_neg (by simpa using h),
          show spentRec b (t :: rest)
              = (if t.bucket = b ∧ t.amount < 0 then |t.amount| else 0)
                + spentRec b rest from rfl,
          if_neg h, ih, zero_add]

/-! ### Concrete stores used by the witnesses -/

def groceriesBucket : Bucket :=
  { name := "Groceries", target := 600, emote := "🥕", allocated := 600 }

def gasBucket : Bucket :=
  { name := "Gas", target := 150, emote := "⛽", allocated := 0 }

def creditCardBucket : Bucket :=
  { name := "CreditCard", target := 1000, emote := "💳", allocated := 0 }

/-- A store with a groceries bucket, a gas bucket and a credit-card bucket. -/
def demoStore : Store :=
  { buckets := [("🥕", groceriesBucket), ("⛽", gasBucket), ("💳", creditCardBucket)],
    transactions := [],
    income := some [{ date := 0, amount := 3000, description := "paycheck",
                      person := "alex" }] }

/-- A store with no credit-card bucket. -/
def noCCStore : Store :=
  { buckets := [("🥕", groceriesBucket)], transactions := [], income := none }

/-- A store whose one bucket is overspent: allocated 5, one spend of 7. -/
def overspentStore : Store :=
  { buckets := [("G", { name := "Groceries", target := 600, emote := "G",
                        allocated := 5 })],
    transactions := [{ date := 0, bucket := "G", amount := -7, description := "x",
                       message_id := 0, cc_purchase := false }],
    income := none }

/-! ### C3: spent and available -/

/-- C3: for every store and bucket key, `get_spent` is the sum of the absolute
values of the amounts of exactly the strictly negative transactions on that
bucket, and `get_available` is `allocated - spent` with no clamping (a store
with negative available exists). -/
theorem spent_available_spec (data : Store) (b : String) (bk : Bucket)
    (hb : lookupDict data.buckets b = some bk) :
    get_spent data b = spentRec b data.transactions ∧
    get_available data b = bk.allocated - get_spent data b ∧
    ∃ d k, get_available d k < 0 := by
  refine ⟨filter_abs_sum_eq_spentRec b data.transactions, ?_, ?_⟩
  · unfold get_available
    rw [hb]
  · refine ⟨overspentStore, "G", ?_⟩
    norm_num [get_available, get_spent, lookupDict, ratAbs, overspentStore,
      List.filter]

/-- Witness for C3 on the overspent store: its one bucket is found, spent is
7, and available is 5 - 7 = -2. -/
theorem spent_available_spec_witness :
    get_spent overspentStore "G" = spentRec "G" overspentStore.transactions ∧
    get_available overspentStore "G"
      = ((5 : Rat)) - get_spent overspentStore "G" ∧
    ∃ d k, get_available d k < 0 :=
  spent_available_spec overspentStore "G"
    { name := "Groceries", target := 600, emote := "G", allocated := 5 } rfl

/-! ### C2: adjust_allocation -/

/-- C2: for every store containing bucket `b`, `adjust_allocation` is rejected
exactly when `allocated + delta < 0`, and on rejection the returned store is
the unchanged input (the Python code `return`s before any mutation or
`save_data` call); otherwise the bucket's `allocated` becomes
`allocated + delta`. -/
theorem adjust_allocation_spec (data : Store) (b : String) (bk : Bucket)
    (delta : Rat) (hb : lookupDict data.buckets b = some bk) :
    (bk.allocated + delta < 0 →
      adjust_allocation data b delta
        = (data, .negativeRejected (bk.allocated + delta))) ∧
    (0 ≤ bk.allocated + delta →
      (adjust_allocation data b delta).2
          = .adjusted bk.allocated (bk.allocated + delta) ∧
      lookupDict (adjust_allocation data b delta).1.buckets b
        = some { bk with allocated := bk.allocated + delta }) := by
  constructor
  · intro h
    simp only [adjust_allocation, hb, if_pos h]
  · intro h
    refine ⟨?_, ?_⟩
    · simp only [adjust_allocation, hb, if_neg (not_lt.mpr h)]
    · simp only [adjust_allocation, hb, if_neg (not_lt.mpr h)]
      exact lookupDict_dictInsert_self data.buckets b _

/-- Witness for C2 on the demo store: adjusting groceries (allocated 600) by
-700 would go negative, so it is rejected with the store unchanged. -/
theorem adjust_allocation_spec_witness :
    adjust_allocation demoStore "🥕" (-700)
      = (demoStore, .negativeRejected ((600 : Rat) + -700)) :=
  (adjust_allocation_spec demoStore "🥕" groceriesBucket (-700) rfl).1
    (by norm_num [groceriesBucket])

/-! ### C4: undo -/

/-- C4: for a store whose log is `init ++ [t]`, undo removes exactly `t`
(a LIFO pop), leaving the earlier transactions, every bucket and the income
records unchanged; for an empty log it reports nothing-to-undo and changes
nothing. -/
theorem undo_last_spec (data : Store) :
    (data.transactions = [] → undo_last data = (data, .nothingToUndo)) ∧
    ∀ init t, data.transactions = init ++ [t] →
      undo_last data = ({ data with transactions := init }, .undone t) := by
  constructor
  · intro h
    unfold undo_last
    rw [h]
    rfl
  · intro init t h
    unfold undo_last
    rw [h, List.getLast?_concat, List.dropLast_concat]

/-! ### C5: bucket resolver -/

/-- Modelled from the spec's words (§4.2): the first case-insensitive exact
name match in the store's bucket iteration order; else the first
case-insensitive substring match; else not-found. -/
def resolveSpec (data : Store) (free_text : String) : Option (String × Bucket) :=
  match data.buckets.find? (fun p => strLower p.2.name == strLower free_text) with
  | some r => some r
  | none =>
      data.buckets.find? (fun p => strContains (strLower p.2.name) (strLower free_text))

theorem findExact_eq_find (nl : String) (l : List (String × Bucket)) :
    findExact nl l = l.find? (fun p => strLower p.2.name == nl) := by
  induction l with
  | nil => rfl
  | cons p rest ih =>
      obtain ⟨e, bk⟩ := p
      by_cases h : strLower bk.name = nl
      · rw [show findExact nl ((e, bk) :: rest)
            = (if strLower bk.name = nl then some (e, bk) else findExact nl rest)
            from rfl,
          if_pos h, List.find?_cons_of_pos _ (by simpa using h)]
      · rw [show findExact nl ((e, bk) :: rest)
            = (if strLower bk.name = nl then some (e, bk) else findExact nl rest)
            from rfl,
          if_neg h, List.find?_cons_of_neg _ (by simpa using h), ih]

theorem findPartial_eq_find (nl : String) (l : List (String × Bucket)) :
    findPartial nl l = l.find? (fun p => strContains (strLower p.2.name) nl) := by
  induction l with
  | nil => rfl
  | cons p rest ih =>
      obtain ⟨e, bk⟩ := p
      by_cases h : strContains (strLower bk.name) nl = true
      · have h' : (fun p : String × Bucket => strContains (strLower p.2.name) nl)
            (e, bk) = true := h
        rw [show findPartial nl ((e, bk) :: rest)
            = (if strContains (strLower bk.name) nl then some (e, bk)
               else findPartial nl rest) from rfl,
          if_pos h, List.find?_cons_of_pos _ (by exact h')]
      · have h' : ¬ (fun p : String × Bucket => strContains (strLower p.2.name) nl)
            (e, bk) = true := h
        rw [show findPartial nl ((e, bk) :: rest)
            = (if strContains (strLower bk.name) nl then some (e, bk)
               else findPartial nl rest) from rfl,
          if_neg h, List.find?_cons_of_neg _ (by simpa using h'), ih]

/-- C5: the resolver performs exactly the spec's algorithm — the first
case-insensitive exact name match in iteration order, else the first
case-insensitive substring match, else not-found, and nothing else. -/
theorem find_bucket_by_name_spec (data : Store) (name : String) :
    find_bucket_by_name data name = resolveSpec data name := by
  unfold find_bucket_by_name resolveSpec
  rw [findExact_eq_find, findPartial_eq_find]

/-! ### C6: clear -/

/-- C6 counterexample: clearing the demo store (recorded income 3000) leaves
total income 0, not 3000 — `clear_data` saves a fresh aggregate
`{'buckets': {}, 'transactions': []}` with no `'income'` key, so the income
array is dropped, not preserved. -/
theorem clear_income_counterexample :
    ¬ get_total_income (clear_data demoStore) = get_total_income demoStore := by
  norm_num [clear_data, get_total_income, demoStore]

/-- C6 amended: `clear_data` resets the aggregate to empty buckets and
transactions with no income key at all, so income records are dropped and
the total income after a clear is 0. -/
theorem clear_data_spec (data : Store) :
    clear_data data = { buckets := [], transactions := [], income := none } ∧
    get_total_income (clear_data data) = 0 :=
  ⟨rfl, rfl⟩

/-! ### C7: set_bucket -/

theorem set_bucket_idem (data : Store) (k n : String) (target : Rat) :
    set_bucket (set_bucket data k n target) k n target
      = set_bucket data k n target := by
  simp only [set_bucket, lookupDict_dictInsert_self, dictInsert_dictInsert]

/-- C7: overwriting an existing bucket key with `set_bucket` installs the new
name and target but keeps the previously allocated value, and replaying the
same `set_bucket` is idempotent on the whole store. -/
theorem set_bucket_spec (data : Store) (k n : String) (target : Rat)
    (bk : Bucket) (hb : lookupDict data.buckets k = some bk) :
    lookupDict (set_bucket data k n target).buckets k
      = some { name := n, target := target, emote := k,
               allocated := bk.allocated } ∧
    set_bucket (set_bucket data k n target) k n target
      = set_bucket data k n target := by
  refine ⟨?_, set_bucket_idem data k n target⟩
  simp only [set_bucket, hb]
  exact lookupDict_dictInsert_self data.buckets k _

/-- Witness for C7: renaming/retargeting the groceries bucket keeps its
allocated 600, and replaying the same command changes nothing further. -/
theorem set_bucket_spec_witness :
    lookupDict (set_bucket demoStore "🥕" "Food" 700).buckets "🥕"
      = some { name := "Food", target := 700, emote := "🥕",
               allocated := groceriesBucket.allocated } ∧
    set_bucket (set_bucket demoStore "🥕" "Food" 700) "🥕" "Food" 700
      = set_bucket demoStore "🥕" "Food" 700 :=
  set_bucket_spec demoStore "🥕" "Food" 700 groceriesBucket rfl

/-! ### Lemmas about the credit-card bucket search -/

theorem find_cc_bucket_cons (e : String) (bk : Bucket)
    (rest : List (String × Bucket)) :
    find_cc_bucket ((e, bk) :: rest)
      = (if strLower bk.name = "creditcard" then some e
         else find_cc_bucket rest) := rfl

theorem find_cc_bucket_mem (l : List (String × Bucket)) (ce : String)
    (h : find_cc_bucket l = some ce) :
    ∃ b, (ce, b) ∈ l ∧ strLower b.name = "creditcard" := by
  induction l with
  | nil => simp [find_cc_bucket] at h
  | cons p rest ih =>
      obtain ⟨e, bk⟩ := p
      by_cases hcc : strLower bk.name = "creditcard"
      · rw [find_cc_bucket_cons, if_pos hcc, Option.some.injEq] at h
        exact ⟨bk, by rw [← h]; exact List.mem_cons_self _ _, hcc⟩
      · rw [find_cc_bucket_cons, if_neg hcc] at h
        obtain ⟨b, hb1, hb2⟩ := ih h
        exact ⟨b, List.mem_cons_of_mem _ hb1, hb2⟩

theorem find_cc_bucket_isSome (l : List (String × Bucket)) (k : String)
    (b : Bucket) (hmem : (k, b) ∈ l) (hname : strLower b.name = "creditcard") :
    ∃ ce, find_cc_bucket l = some ce := by
  induction l with
  | nil => cases hmem
  | cons p rest ih =>
      obtain ⟨e, bk⟩ := p
      by_cases hcc : strLower bk.name = "creditcard"
      · exact ⟨e, by rw [find_cc_bucket_cons, if_pos hcc]⟩
      · rcases List.mem_cons.mp hmem with heq | hmem'
        · obtain ⟨rfl, rfl⟩ := Prod.mk.injEq .. ▸ heq
          exact absurd hname hcc
        · obtain ⟨ce, hce⟩ := ih hmem'
          exact ⟨ce, by rw [find_cc_bucket_cons, if_neg hcc, hce]⟩

theorem find_cc_bucket_none (l : List (String × Bucket))
    (h : ∀ p ∈ l, ¬ strLower p.2.name = "creditcard") :
    find_cc_bucket l = none := by
  induction l with
  | nil => rfl
  | cons p rest ih =>
      obtain ⟨e, bk⟩ := p
      rw [find_cc_bucket_cons, if_neg (h (e, bk) (List.mem_cons_self _ _)),
        ih (fun q hq => h q (List.mem_cons_of_mem _ hq))]

/-- Whatever the credit-card branch does, `post_transaction` on an existing
bucket appends the primary transaction first. -/
theorem post_transaction_shape (data : Store) (emote : String) (amount : Rat)
    (description : String) (cc : Bool) (msgId date : Nat) (bk : Bucket)
    (hb : lookupDict data.buckets emote = some bk) :
    ∃ rest,
      (post_transaction data emote amount description cc msgId date).1.transactions
        = data.transactions ++
            ({ date := date, bucket := emote, amount := amount,
               description := description, message_id := msgId,
               cc_purchase := cc } :: rest) := by
  simp only [post_transaction, hb]
  by_cases hcc : cc = true ∧ amount < 0
  · rw [if_pos hcc]
    cases hfc : find_cc_bucket data.buckets with
    | none => exact ⟨[], by simp⟩
    | some ce =>
        exact ⟨[{ date := date, bucket := ce, amount := amount,
                  description := description ++ " (from " ++ bk.name ++ ")",
                  message_id := msgId, cc_purchase := false }], by simp⟩
  · rw [if_neg hcc]
    exact ⟨[], by simp⟩

/-! ### C8: the " CC" suffix -/

/-- C8: exactly the descriptions whose uppercase ends with the
three-character suffix `" CC"` (a case-insensitive suffix test) produce
`cc_purchase = true`, with the suffix dropped and the remainder trimmed
before storage; every other description is stored unchanged with
`cc_purchase = false`; the parsed pair is what the posted primary
transaction carries. -/
theorem cc_suffix_spec (data : Store) (emote : String) (amount : Rat)
    (rawDescription : String) (msgId date : Nat) (bk : Bucket)
    (hb : lookupDict data.buckets emote = some bk) :
    ((parse_cc_suffix rawDescription).1 = true
        ↔ strEndsWith (strUpper rawDescription) " CC" = true) ∧
    (parse_cc_suffix rawDescription).2
      = (if strEndsWith (strUpper rawDescription) " CC"
          then strTrim (strDropRight rawDescription 3) else rawDescription) ∧
    ∃ rest,
      (post_explicit data emote amount rawDescription msgId date).1.transactions
        = data.transactions ++
            ({ date := date, bucket := emote, amount := amount,
               description := (parse_cc_suffix rawDescription).2,
               message_id := msgId,
               cc_purchase := (parse_cc_suffix rawDescription).1 } :: rest) := by
  refine ⟨?_, ?_, ?_⟩
  · cases h : strEndsWith (strUpper rawDescription) " CC" <;>
      simp [parse_cc_suffix, h]
  · cases h : strEndsWith (strUpper rawDescription) " CC" <;>
      simp [parse_cc_suffix, h]
  · exact post_transaction_shape data emote amount
      (parse_cc_suffix rawDescription).2 (parse_cc_suffix rawDescription).1
      msgId date bk hb

/-- Witness for C8 on the demo store with the description "milk cc". -/
theorem cc_suffix_spec_witness :
    ((parse_cc_suffix "milk cc").1 = true
        ↔ strEndsWith (strUpper "milk cc") " CC" = true) ∧
    (parse_cc_suffix "milk cc").2
      = (if strEndsWith (strUpper "milk cc") " CC"
          then strTrim (strDropRight "milk cc" 3) else "milk cc") ∧
    ∃ rest,
      (post_explicit demoStore "🥕" (-50) "milk cc" 7 9).1.transactions
        = demoStore.transactions ++
            ({ date := 9, bucket := "🥕", amount := -50,
               description := (parse_cc_suffix "milk cc").2,
               message_id := 7,
               cc_purchase := (parse_cc_suffix "milk cc").1 } :: rest) :=
  cc_suffix_spec demoStore "🥕" (-50) "milk cc" 7 9 groceriesBucket rfl

/-! ### C9: utilization -/

/-- C9: `utilization` evaluates the division `debt / target * 100` only under
the guard `target > 0` and yields 0 whenever the guard fails (the guarded
branch never divides by a non-positive target), and the status tiers compare
strictly: utilization above 90 is critical, above 50 warning, else nominal. -/
theorem utilization_spec (target debt u : Rat) :
    (target ≤ 0 → utilization target debt = 0) ∧
    (0 < target → utilization target debt = debt / target * 100) ∧
    (90 < u → cc_status u = .critical) ∧
    (50 < u → u ≤ 90 → cc_status u = .warning) ∧
    (u ≤ 50 → cc_status u = .nominal) := by
  refine ⟨?_, ?_, ?_, ?_, ?_⟩
  · intro h
    rw [utilization, if_neg (not_lt.mpr h)]
  · intro h
    rw [utilization, if_pos h]
  · intro h
    rw [cc_status, if_pos h]
  · intro h1 h2
    rw [cc_status, if_neg (not_lt.mpr h2), if_pos h1]
  · intro h
    have h90 : ¬ 90 < u := not_lt.mpr (h.trans (by norm_num))
    rw [cc_status, if_neg h90, if_neg (not_lt.mpr h)]

/-! ### C1: credit-card dual posting -/

/-- C1: posting an explicit spend (`amount < 0`) flagged as a credit-card
purchase appends exactly two transactions when some bucket is named
`"creditcard"` case-insensitively — the primary one on the named bucket and
a mirror on the credit-card bucket with the same signed amount, annotated
description and `cc_purchase = false` — and appends exactly one transaction
(without error) when no such bucket exists. -/
theorem cc_dual_posting_spec (data : Store) (emote : String) (amount : Rat)
    (description : String) (msgId date : Nat) (bk : Bucket)
    (hb : lookupDict data.buckets emote = some bk) (hneg : amount < 0) :
    (∀ k b, (k, b) ∈ data.buckets → strLower b.name = "creditcard" →
      ∃ ce ceBk,
        find_cc_bucket data.buckets = some ce ∧
        (ce, ceBk) ∈ data.buckets ∧ strLower ceBk.name = "creditcard" ∧
        (post_transaction data emote amount description true msgId date).1.transactions
          = data.transactions ++
              [{ date := date, bucket := emote, amount := amount,
                 description := description, message_id := msgId,
                 cc_purchase := true },
               { date := date, bucket := ce, amount := amount,
                 description := description ++ " (from " ++ bk.name ++ ")",
                 message_id := msgId, cc_purchase := false }]) ∧
    ((∀ p ∈ data.buckets, ¬ strLower p.2.name = "creditcard") →
      (post_transaction data emote amount description true msgId date).1.transactions
        = data.transactions ++
            [{ date := date, bucket := emote, amount := amount,
               description := description, message_id := msgId,
               cc_purchase := true }] ∧
      (post_transaction data emote amount description true msgId date).2
        = .posted false) := by
  constructor
  · intro k b hmem hname
    obtain ⟨ce, hce⟩ := find_cc_bucket_isSome data.buckets k b hmem hname
    obtain ⟨ceBk, hmem', hname'⟩ := find_cc_bucket_mem data.buckets ce hce
    refine ⟨ce, ceBk, hce, hmem', hname', ?_⟩
    simp [post_transaction, hb, hce, hneg]
  · intro hnone
    have hfc := find_cc_bucket_none data.buckets hnone
    constructor <;> simp [post_transaction, hb, hfc, hneg]

/-- Witness for C1 on the demo store: a -50 spend on groceries flagged CC is
mirrored onto the credit-card bucket. -/
theorem cc_dual_posting_spec_witness :
    ∃ ce ceBk,
      find_cc_bucket demoStore.buckets = some ce ∧
      (ce, ceBk) ∈ demoStore.buckets ∧ strLower ceBk.name = "creditcard" ∧
      (post_transaction demoStore "🥕" (-50) "milk" true 7 9).1.transactions
        = demoStore.transactions ++
            [{ date := 9, bucket := "🥕", amount := -50, description := "milk",
               message_id := 7, cc_purchase := true },
             { date := 9, bucket := ce, amount := -50,
               description := "milk" ++ " (from " ++ groceriesBucket.name ++ ")",
               message_id := 7, cc_purchase := false }] :=
  (cc_dual_posting_spec demoStore "🥕" (-50) "milk" 7 9 groceriesBucket rfl
      (by norm_num)).1 "💳" creditCardBucket (by simp [demoStore]) (by decide)

/-! ### C10: one undo after a dual posting -/

/-- C10: when a credit-card dual posting appended the primary spend and then
the mirror, a single undo removes only the mirror entry, leaving the
original spend (and everything else) in place — the pair is not undone
atomically. -/
theorem undo_after_dual_posting_spec (data : Store) (emote : String)
    (amount : Rat) (description : String) (msgId date : Nat) (bk : Bucket)
    (ce : String) (hb : lookupDict data.buckets emote = some bk)
    (hneg : amount < 0) (hcc : find_cc_bucket data.buckets = some ce) :
    undo_last (post_transaction data emote amount description true msgId date).1
      = ({ (post_transaction data emote amount description true msgId date).1
            with
            transactions := data.transactions ++
              [{ date := date, bucket := emote, amount := amount,
                 description := description, message_id := msgId,
                 cc_purchase := true }] },
         .undone { date := date, bucket := ce, amount := amount,
                   description := description ++ " (from " ++ bk.name ++ ")",
                   message_id := msgId, cc_purchase := false }) := by
  have hpost :
      (post_transaction data emote amount description true msgId date).1.transactions
        = (data.transactions ++
            [{ date := date, bucket := emote, amount := amount,
               description := description, message_id := msgId,
               cc_purchase := true }]) ++
          [{ date := date, bucket := ce, amount := amount,
             description := description ++ " (from " ++ bk.name ++ ")",
             message_id := msgId, cc_purchase := false }] := by
    simp [post_transaction, hb, hcc, hneg]
  unfold undo_last
  rw [hpost, List.getLast?_concat, List.dropLast_concat]

/-- Witness for C10 on the demo store: undoing right after the dual posting
removes the mirror and keeps the original -50 groceries spend. -/
theorem undo_after_dual_posting_witness :
    undo_last (post_transaction demoStore "🥕" (-50) "milk" true 7 9).1
      = ({ (post_transaction demoStore "🥕" (-50) "milk" true 7 9).1 with
            transactions := demoStore.transactions ++
              [{ date := 9, bucket := "🥕", amount := -50,
                 description := "milk", message_id := 7,
                 cc_purchase := true }] },
         .undone { date := 9, bucket := "💳", amount := -50,
                   description := "milk" ++ " (from " ++ groceriesBucket.name
                     ++ ")",
                   message_id := 7, cc_purchase := false }) :=
  undo_after_dual_posting_spec demoStore "🥕" (-50) "milk" 7 9
    groceriesBucket "💳" rfl (by norm_num) (by decide)

end BudgetBot
